import Mathlib

/-!
Shallow embedding of the admission-control and session core of the
pydatatask repository (files `pydatatask/pod_manager.py`,
`pydatatask/session.py`, `pydatatask/declarative.py`), together with
theorems settling the specification claims about it.

Resource quantities (`parse_quantity` results, Python `Decimal`) are
modelled as rationals; manifests and pods carry their requests already
parsed.  Python exceptions are modelled by an explicit error type, and
`try/finally` blocks by returning the mutated state alongside the
optional raised error.
-/

namespace Pydatatask

/-- One container's declared resource requests:
`container['resources']['requests']['cpu' / 'memory']`, already parsed. -/
structure Container where
  cpuReq : ℚ
  memReq : ℚ
deriving DecidableEq, Repr

/-- A pod as stored in the cluster backend: its metadata name, the
`app` / `task` / `job` labels, and its spec's containers. -/
structure Pod where
  name : String
  app : String
  task : String
  job : String
  containers : List Container
deriving DecidableEq, Repr

/-- The `labels` dict written by `PodManager.launch`:
`{'app': app, 'task': task, 'job': job}`. -/
structure Labels where
  app : String
  task : String
  job : String
deriving DecidableEq, Repr

/-- The `metadata` dict of a manifest: the keys `launch` touches
(`name`, `labels`) plus any other entries, which `dict.update` keeps. -/
structure MetaData where
  name : Option String
  labels : Option Labels
  extra : List (String × String)
deriving DecidableEq, Repr

/-- A pod manifest as passed to `PodManager.launch`: its `kind`, the
`spec['containers']` list with parsed requests, `spec['restartPolicy']`,
and the optional `metadata` dict. -/
structure Manifest where
  kind : String
  containers : List Container
  restartPolicy : Option String
  metadata : Option MetaData
deriving DecidableEq, Repr

/-- Log records emitted by `PodManager` through `l.info`. -/
inductive LogMsg where
  /-- "Cannot launch %s - cpu limit" -/
  | cpuLimit (task : String)
  /-- "Cannot launch %s - memory limit" -/
  | memLimit (task : String)
  /-- "Creating task %s for job %s" -/
  | creating (task job : String)
deriving DecidableEq, Repr

/-- Python exceptions the embedded code can raise. -/
inductive PyError where
  /-- `TypeError`, e.g. `None + Decimal` from `self._cpu_usage += ...`
  when the cached usage is still `None`. -/
  | typeError
  /-- `AssertionError` from `assert manifest['kind'] == 'Pod'`. -/
  | assertionError
  /-- `kubernetes_asyncio.client.ApiException` with the given `reason`. -/
  | apiException (reason : String)
  /-- `StopAsyncIteration` from an exhausted async generator. -/
  | stopAsyncIteration
  /-- `ValueError(msg)` raised by the declarative validators. -/
  | valueError (msg : String)
  /-- a plain `Exception(msg)`, e.g. `Exception("Session is not open")`. -/
  | exception (msg : String)
deriving DecidableEq, Repr

/-- The immutable configuration of a `PodManager`: `self.app`,
`self.namespace`, and the parsed `cpu_quota` / `mem_quota`. -/
structure PodManager where
  app : String
  ns : String
  cpuQuota : ℚ
  memQuota : ℚ
deriving DecidableEq, Repr

/-- The mutable state a `PodManager` interacts with: the cached usage
fields `self._cpu_usage` / `self._mem_usage` (`None` until loaded), the
`self.warned` set of task names, the pods existing in the backend
namespace, and the trace of emitted log records. -/
structure PodState where
  cpuUsage : Option ℚ
  memUsage : Option ℚ
  warned : List String
  pods : List Pod
  log : List LogMsg
deriving DecidableEq, Repr

/-- Outcome of a `v1.list_namespaced_pod` call: either it returns the
backend's pods, or it raises `ApiException` with the given reason. -/
inductive ListOutcome where
  | items
  | apiErr (reason : String)
deriving DecidableEq, Repr

/-- `self._x += q` on a field that may be `None`:
`None + Decimal` raises `TypeError`. -/
def optAdd : Option ℚ → ℚ → Except PyError ℚ
  | none, _ => .error .typeError
  | some v, q => .ok (v + q)

/-- `self._x -= q` on a field that may be `None`. -/
def optSub : Option ℚ → ℚ → Except PyError ℚ
  | none, _ => .error .typeError
  | some v, q => .ok (v - q)

/-- The pods returned by `list_namespaced_pod(..., label_selector='app='
+ self.app)`: those whose `app` label equals the manager's. -/
def podsMatching (m : PodManager) (pods : List Pod) : List Pod :=
  pods.filter (fun p => p.app == m.app)

/-- The containers iterated by `_load_usage`'s nested loop. -/
def matchingContainers (m : PodManager) (pods : List Pod) : List Container :=
  (podsMatching m pods).foldr (fun p acc => p.containers ++ acc) []

/-- The body of `_load_usage`'s `for` loop: per container it executes
`self._cpu_usage += parse_quantity(...)` then
`self._mem_usage += parse_quantity(...)` on the *fields* (not the local
accumulators), so it raises `TypeError` as soon as a field is `None`.
Only the raised error matters: the `finally` clause overwrites both
fields afterwards. -/
def loadLoop : Option ℚ → Option ℚ → List Container → Option PyError
  | _, _, [] => none
  | cpu, mem, c :: rest =>
    match optAdd cpu c.cpuReq with
    | .error e => some e
    | .ok cpu' =>
      match optAdd mem c.memReq with
      | .error e => some e
      | .ok mem' => loadLoop (some cpu') (some mem') rest

/-- `PodManager._load_usage`.  The locals `cpu_usage = mem_usage = 0`
are never changed, so the `finally` clause always stores `0` into both
cached fields; an `ApiException` whose reason is `"Forbidden"` is
swallowed, any other raised exception propagates after the `finally`. -/
def loadUsage (m : PodManager) (s : PodState) (o : ListOutcome) :
    PodState × Option PyError :=
  let err : Option PyError :=
    match o with
    | .items => loadLoop s.cpuUsage s.memUsage (matchingContainers m s.pods)
    | .apiErr r => if r == "Forbidden" then none else some (.apiException r)
  ({ s with cpuUsage := some 0, memUsage := some 0 }, err)

/-- `PodManager.cpu_usage`: load on a cache miss, then return the cached
field (which `_load_usage`'s `finally` always leaves set). -/
def cpu_usage (m : PodManager) (s : PodState) (o : ListOutcome) :
    PodState × Except PyError ℚ :=
  match s.cpuUsage with
  | some v => (s, .ok v)
  | none =>
    match loadUsage m s o with
    | (s', some e) => (s', .error e)
    | (s', none) => (s', .ok (s'.cpuUsage.getD 0))

/-- `PodManager.mem_usage`. -/
def mem_usage (m : PodManager) (s : PodState) (o : ListOutcome) :
    PodState × Except PyError ℚ :=
  match s.memUsage with
  | some v => (s, .ok v)
  | none =>
    match loadUsage m s o with
    | (s', some e) => (s', .error e)
    | (s', none) => (s', .ok (s'.memUsage.getD 0))

/-- Sum of the manifest's per-container cpu requests
(the `cpu_request` accumulator in `launch`). -/
def sumCpu (cs : List Container) : ℚ := (cs.map Container.cpuReq).sum

/-- Sum of the manifest's per-container memory requests. -/
def sumMem (cs : List Container) : ℚ := (cs.map Container.memReq).sum

/-- `'%s-%s-%s' % (self.app, job, task)`. -/
def mkPodName (m : PodManager) (job task : String) : String :=
  m.app ++ "-" ++ job ++ "-" ++ task

/-- `manifest['metadata'] = manifest.get('metadata', {})` followed by
`.update({'name': ..., 'labels': {...}})`: other metadata entries are
kept, `name` and `labels` are overwritten. -/
def updatedMetadata (m : PodManager) (job task : String) :
    Option MetaData → MetaData
  | none =>
    { name := some (mkPodName m job task)
      labels := some ⟨m.app, task, job⟩
      extra := [] }
  | some md =>
    { md with
      name := some (mkPodName m job task)
      labels := some ⟨m.app, task, job⟩ }

/-- The pod `create_namespaced_pod` stores for the (mutated) manifest. -/
def mkPod (m : PodManager) (job task : String) (containers : List Container) :
    Pod :=
  { name := mkPodName m job task
    app := m.app
    task := task
    job := job
    containers := containers }

/-- `PodManager.launch(job, task, manifest)`.  Returns the post state,
the manifest after its in-place mutations, and the result (`Bool`) or
raised exception.  The single `ListOutcome` feeds whichever usage load
the call triggers (at most one: `_load_usage` fills both caches). -/
def launch (m : PodManager) (s : PodState) (o : ListOutcome)
    (job task : String) (manifest : Manifest) :
    PodState × Manifest × Except PyError Bool :=
  if manifest.kind ≠ "Pod" then (s, manifest, .error .assertionError)
  else
    let manifest := { manifest with restartPolicy := some "Never" }
    let cpuRequest := sumCpu manifest.containers
    let memRequest := sumMem manifest.containers
    match cpu_usage m s o with
    | (s₁, .error e) => (s₁, manifest, .error e)
    | (s₁, .ok cpuU) =>
      if cpuRequest + cpuU > m.cpuQuota then
        if task ∈ s₁.warned then (s₁, manifest, .ok false)
        else
          ({ s₁ with
              warned := task :: s₁.warned
              log := s₁.log ++ [.cpuLimit task] }, manifest, .ok false)
      else
        match mem_usage m s₁ o with
        | (s₂, .error e) => (s₂, manifest, .error e)
        | (s₂, .ok memU) =>
          if memRequest + memU > m.memQuota then
            if task ∈ s₂.warned then (s₂, manifest, .ok false)
            else
              ({ s₂ with
                  warned := task :: s₂.warned
                  log := s₂.log ++ [.memLimit task] }, manifest, .ok false)
          else
            let manifest :=
              { manifest with
                metadata := some (updatedMetadata m job task manifest.metadata) }
            let s₃ :=
              { s₂ with
                log := s₂.log ++ [.creating task job]
                pods := s₂.pods ++ [mkPod m job task manifest.containers] }
            match optAdd s₃.cpuUsage cpuRequest with
            | .error e => (s₃, manifest, .error e)
            | .ok cu =>
              match optAdd s₃.memUsage memRequest with
              | .error e => ({ s₃ with cpuUsage := some cu }, manifest, .error e)
              | .ok mu =>
                ({ s₃ with cpuUsage := some cu, memUsage := some mu },
                  manifest, .ok true)

/-- `v1.delete_namespaced_pod(name, namespace)`: removes the named pod,
or raises `ApiException` with reason `"Not Found"` if no such pod
exists in the backend. -/
def removePodNamed (nm : String) : List Pod → Option (List Pod)
  | [] => none
  | p :: rest =>
    if p.name == nm then some rest
    else (removePodNamed nm rest).map (fun ps => p :: ps)

/-- The decrement loop of `PodManager.delete`:
`self._cpu_usage -= ...; self._mem_usage -= ...` per container. -/
def deleteLoop (s : PodState) : List Container → PodState × Except PyError Unit
  | [] => (s, .ok ())
  | c :: rest =>
    match optSub s.cpuUsage c.cpuReq with
    | .error e => (s, .error e)
    | .ok cu =>
      match optSub s.memUsage c.memReq with
      | .error e => ({ s with cpuUsage := some cu }, .error e)
      | .ok mu =>
        deleteLoop { s with cpuUsage := some cu, memUsage := some mu } rest

/-- `PodManager.delete(pod)`: load the usage cache, delete the backend
pod by name (raising the backend's not-found `ApiException` if it is
already gone), then subtract the pod's container requests from the
cached usage. -/
def delete (m : PodManager) (s : PodState) (o : ListOutcome) (pod : Pod) :
    PodState × Except PyError Unit :=
  match cpu_usage m s o with
  | (s₁, .error e) => (s₁, .error e)
  | (s₁, .ok _) =>
    match removePodNamed pod.name s₁.pods with
    | none => (s₁, .error (.apiException "Not Found"))
    | some pods' => deleteLoop { s₁ with pods := pods' } pod.containers

/-! ## Session (`pydatatask/session.py`)

An async generator registered with `Session.ephemeral` is modelled by
the list of values it has yet to yield: `__anext__` pops the head, and
on an exhausted generator runs teardown and raises
`StopAsyncIteration`.  The dicts `self._ephemeral_defs` and
`self.ephemerals` are insertion-ordered association lists. -/

/-- Python-dict lookup on an association list. -/
def dictGet {β : Type} (l : List (String × β)) (k : String) : Option β :=
  (l.find? (fun p => p.1 == k)).map Prod.snd

/-- Python-dict assignment on an association list: overwriting keeps
the key's position, a new key is appended. -/
def dictSet {β : Type} : List (String × β) → String → β → List (String × β)
  | [], k, v => [(k, v)]
  | (k', v') :: rest, k, v =>
    if k' == k then (k, v) :: rest else (k', v') :: dictSet rest k v

/-- A `Session`: `_ephemeral_defs` maps each registered manager's name
to its generator's remaining yields; `ephemerals` is the live-resource
table. -/
structure Session (α : Type) where
  ephemeralDefs : List (String × List α)
  ephemerals : List (String × α)
deriving DecidableEq, Repr

/-- `Session.__init__`: both dicts start empty. -/
def emptySession (α : Type) : Session α := ⟨[], []⟩

/-- `Session.ephemeral(manager)`: stores `manager()` (the fresh
generator, here: its yield list) under the manager's name without
driving it. -/
def registerEphemeral {α : Type} (s : Session α) (nm : String)
    (yields : List α) : Session α :=
  { s with ephemeralDefs := dictSet s.ephemeralDefs nm yields }

/-- The accessor closure returned by `Session.ephemeral`: raises
`Exception("Session is not open")` while the name is absent from
`self.ephemerals`, else returns the live resource. -/
def accessor {α : Type} (s : Session α) (nm : String) : Except PyError α :=
  match dictGet s.ephemerals nm with
  | none => .error (.exception "Session is not open")
  | some v => .ok v

/-- The loop of `Session.open`: drive each registered generator one
step (`await manager.__anext__()`) and store the yielded value in
`self.ephemerals`; an exhausted generator's `StopAsyncIteration`
propagates, aborting the loop. -/
def openGo {α : Type} :
    List (String × List α) → List (String × List α) → List (String × α) →
    Session α × Option PyError
  | done, [], eph => (⟨done, eph⟩, none)
  | done, (nm, []) :: rest, eph =>
    (⟨done ++ (nm, []) :: rest, eph⟩, some .stopAsyncIteration)
  | done, (nm, v :: vs) :: rest, eph =>
    openGo (done ++ [(nm, vs)]) rest (dictSet eph nm v)

/-- `Session.open`. -/
def openSession {α : Type} (s : Session α) : Session α × Option PyError :=
  openGo [] s.ephemeralDefs s.ephemerals

/-! ## Declarative configuration pickers (`pydatatask/declarative.py`)

Configuration values are a Python-ish dynamic `Value` type; the
validators return `Except PyError`.  The target constructors
(`FileRepository`, `PodManager`, ...) live outside this module's
control, so `make_constructor` takes the constructor as a black-box total
function on the validated keyword dict. -/

/-- A dynamically-typed configuration value. -/
inductive Value where
  | vstr (s : String)
  | vint (n : Int)
  | vbool (b : Bool)
  | vdict (entries : List (String × Value))
  | vlist (elems : List Value)
  | vnone

/-- The loop of `make_typeddict_constructor`'s inner function: for each
supplied entry, reject keys absent from the schema with
`ValueError("Invalid argument to <name>: <k>")`, otherwise run the
schema's value transformer and collect `kwargs[k]`. -/
def tdLoop (name : String) (schema : List (String × (Value → Except PyError Value))) :
    List (String × Value) → List (String × Value) →
    Except PyError (List (String × Value))
  | acc, [] => .ok acc
  | acc, (k, v) :: rest =>
    match dictGet schema k with
    | none => .error (.valueError ("Invalid argument to " ++ name ++ ": " ++ k))
    | some transform =>
      match transform v with
      | .error e => .error e
      | .ok v' => tdLoop name schema (dictSet acc k v') rest

/-- `make_typeddict_constructor(name, schema)` applied to an input:
non-mapping inputs are rejected; supplied keys are validated against
the schema.  Keys the schema has but the input lacks are *not*
checked. -/
def make_typeddict_constructor (name : String)
    (schema : List (String × (Value → Except PyError Value)))
    (thing : Value) : Except PyError (List (String × Value)) :=
  match thing with
  | .vdict entries => tdLoop name schema [] entries
  | _ => .error (.valueError (name ++ " must be followed by a mapping"))

/-- `make_constructor(name, constructor, schema)`: validate through
`make_typeddict_constructor`, then call `constructor(**kwargs)`. -/
def make_constructor {β : Type} (name : String)
    (constructor : List (String × Value) → β)
    (schema : List (String × (Value → Except PyError Value)))
    (thing : Value) : Except PyError β :=
  (make_typeddict_constructor name schema thing).map constructor

/-- `make_dispatcher(name, mapping)` applied to an input: requires a
mapping carrying a `cls` key naming one of the registered constructors;
`args` defaults to the empty dict.  A `cls` that is not a string never
matches the string-keyed `mapping`, so it falls into the same
`ValueError` as an unknown name. -/
def make_dispatcher {β : Type} (name : String)
    (mapping : List (String × (Value → Except PyError β)))
    (thing : Value) : Except PyError β :=
  match thing with
  | .vdict entries =>
    match dictGet entries "cls" with
    | none => .error (.valueError ("You must provide the cls name for " ++ name))
    | some key =>
      let value := (dictGet entries "args").getD (.vdict [])
      match key with
      | .vstr ks =>
        match dictGet mapping ks with
        | none =>
          .error (.valueError (ks ++ " is not a valid member of " ++ name))
        | some constructor => constructor value
      | _ => .error (.valueError ("cls is not a valid member of " ++ name))
  | _ => .error (.valueError (name ++ " must be a mapping"))

/-! ## Sequences of launches and warning counts -/

/-- The arguments of one `launch` call (with the backend's list
outcome, should the call trigger a usage load). -/
structure LaunchCall where
  o : ListOutcome
  job : String
  task : String
  manifest : Manifest
deriving DecidableEq, Repr

/-- Run a sequence of `launch` calls against one `PodManager`,
threading the state. -/
def runLaunches (m : PodManager) : PodState → List LaunchCall → PodState
  | s, [] => s
  | s, c :: rest => runLaunches m (launch m s c.o c.job c.task c.manifest).1 rest

/-- Is this log record a quota warning ("cpu limit" or "memory limit")
for the given task? -/
def isWarnFor (t : String) : LogMsg → Bool
  | .cpuLimit t' => t' == t
  | .memLimit t' => t' == t
  | .creating _ _ => false

/-- Number of quota warnings for a task in a log trace. -/
def warnCount (t : String) (log : List LogMsg) : Nat :=
  (log.filter (isWarnFor t)).length

/-! ## Concrete example inputs -/

/-- A manager with one cpu and one memory unit of quota. -/
def exManager : PodManager := ⟨"app", "ns", 1, 1⟩

/-- A running pod labelled with this manager's app, requesting one cpu
and one memory unit. -/
def exPod : Pod := ⟨"pod0", "app", "t", "j", [⟨1, 1⟩]⟩

/-- A fresh state: usage cache unset, nothing warned, empty backend. -/
def exFresh : PodState := ⟨none, none, [], [], []⟩

/-- A fresh state whose backend already runs `exPod`. -/
def exFreshPods : PodState := ⟨none, none, [], [exPod], []⟩

/-- A state with the usage cache loaded at zero and empty backend. -/
def exLoaded : PodState := ⟨some 0, some 0, [], [], []⟩

/-- A manifest requesting two cpus (over `exManager`'s quota). -/
def exManifestCpu2 : Manifest := ⟨"Pod", [⟨2, 0⟩], none, none⟩

/-- A manifest requesting two memory units (over quota, cpu fine). -/
def exManifestMem2 : Manifest := ⟨"Pod", [⟨0, 2⟩], none, none⟩

/-- A manifest requesting one cpu and one memory unit. -/
def exManifest11 : Manifest := ⟨"Pod", [⟨1, 1⟩], none, none⟩

/-- State after a first launch of `exManifestCpu2` against `exLoaded`:
rejected on the cpu condition, task `"t"` warned. -/
def exState8 : PodState := (launch exManager exLoaded .items "j1" "t" exManifestCpu2).1

/-- The identity value transformer (standing for schema entries such as
`str` whose coercion always succeeds on the supplied value). -/
def idTransform : Value → Except PyError Value := fun v => .ok v

/-- A marker target constructor which records the keyword dict it was
invoked with (the real `FileRepository` etc. live outside this
repository's source). -/
def kwRecorder : List (String × Value) → List (String × Value) := fun kw => kw

/-- A dispatcher mapping with one repository kind, `File`, whose schema
enumerates the single key `basedir`. -/
def exRepoMapping : List (String × (Value → Except PyError (List (String × Value)))) :=
  [("File", make_constructor "FileRepository" kwRecorder [("basedir", idTransform)])]

/-! ## Theorems -/

/-- On a cache hit, `cpu_usage` returns the cached value unchanged. -/
theorem cpu_usage_cacheHit (m : PodManager) (s : PodState) (o : ListOutcome)
    (v : ℚ) (h : s.cpuUsage = some v) : cpu_usage m s o = (s, .ok v) := by
  unfold cpu_usage
  rw [h]

/-- On a cache hit, `mem_usage` returns the cached value unchanged. -/
theorem mem_usage_cacheHit (m : PodManager) (s : PodState) (o : ListOutcome)
    (v : ℚ) (h : s.memUsage = some v) : mem_usage m s o = (s, .ok v) := by
  unfold mem_usage
  rw [h]

/-- `_load_usage` never touches the backend pods, the warned set, or
the log. -/
theorem loadUsage_fst (m : PodManager) (s : PodState) (o : ListOutcome) :
    (loadUsage m s o).1 = { s with cpuUsage := some 0, memUsage := some 0 } := rfl

/-- `cpu_usage` never touches the backend pods, the warned set, or the
log. -/
theorem cpu_usage_frame (m : PodManager) (s : PodState) (o : ListOutcome)
    (s₁ : PodState) (r : Except PyError ℚ) (h : cpu_usage m s o = (s₁, r)) :
    s₁.pods = s.pods ∧ s₁.warned = s.warned ∧ s₁.log = s.log := by
  unfold cpu_usage at h
  split at h
  · cases h
    exact ⟨rfl, rfl, rfl⟩
  · split at h <;>
    · rename_i s' e heq
      cases h
      have := congrArg Prod.fst heq
      rw [loadUsage_fst] at this
      simp only [] at this
      rw [← this]
      exact ⟨rfl, rfl, rfl⟩

/-- `mem_usage` never touches the backend pods, the warned set, or the
log. -/
theorem mem_usage_frame (m : PodManager) (s : PodState) (o : ListOutcome)
    (s₁ : PodState) (r : Except PyError ℚ) (h : mem_usage m s o = (s₁, r)) :
    s₁.pods = s.pods ∧ s₁.warned = s.warned ∧ s₁.log = s.log := by
  unfold mem_usage at h
  split at h
  · cases h
    exact ⟨rfl, rfl, rfl⟩
  · split at h <;>
    · rename_i s' e heq
      cases h
      have := congrArg Prod.fst heq
      rw [loadUsage_fst] at this
      simp only [] at this
      rw [← this]
      exact ⟨rfl, rfl, rfl⟩

/-- With the usage cache already populated and a well-formed kind,
`launch` is the pure admission transition: reject (warning once per
task) when a request pushed past either quota, otherwise create the
pod, charge the cache, and return `true`. -/
theorem launch_cacheHit (m : PodManager) (s : PodState) (o : ListOutcome)
    (job task : String) (mf : Manifest) (cv mv : ℚ)
    (hk : mf.kind = "Pod") (hc : s.cpuUsage = some cv) (hm : s.memUsage = some mv) :
    launch m s o job task mf =
      if sumCpu mf.containers + cv > m.cpuQuota then
        (if task ∈ s.warned then s
         else { s with warned := task :: s.warned, log := s.log ++ [.cpuLimit task] },
         { mf with restartPolicy := some "Never" }, .ok false)
      else if sumMem mf.containers + mv > m.memQuota then
        (if task ∈ s.warned then s
         else { s with warned := task :: s.warned, log := s.log ++ [.memLimit task] },
         { mf with restartPolicy := some "Never" }, .ok false)
      else
        ({ s with
            cpuUsage := some (cv + sumCpu mf.containers)
            memUsage := some (mv + sumMem mf.containers)
            pods := s.pods ++ [mkPod m job task mf.containers]
            log := s.log ++ [.creating task job] },
         { mf with
            restartPolicy := some "Never"
            metadata := some (updatedMetadata m job task mf.metadata) },
         .ok true) := by
  unfold launch
  rw [if_neg (by simp [hk])]
  rw [cpu_usage_cacheHit m s o cv hc]
  simp only []
  rw [mem_usage_cacheHit m s o mv hm]
  simp only [optAdd, hc, hm]
  split_ifs <;> rfl

/-- Componentwise consequences of an equation between triples. -/
theorem triple_eq {α β γ : Type} {a a' : α} {b b' : β} {c c' : γ}
    (h : (a, b, c) = (a', b', c')) : a = a' ∧ b = b' ∧ c = c' := by
  cases h
  exact ⟨rfl, rfl, rfl⟩

/-- The only error `optAdd` can raise is `TypeError`. -/
theorem optAdd_error {a : Option ℚ} {q : ℚ} {e : PyError}
    (h : optAdd a q = .error e) : e = .typeError := by
  cases a with
  | none =>
    simp only [optAdd, Except.error.injEq] at h
    exact h.symm
  | some v => simp [optAdd] at h

/-- Complete enumeration of `launch`'s outcomes on a `Pod` manifest:
a usage-load error (state frame preserved), a quota rejection (pods
untouched, warning logged only when the task was not yet warned), or
the create path (pod appended, "Creating" logged, metadata rewritten;
result `true`, or in principle a `TypeError` from charging an unset
cache). -/
theorem launch_outcomes (m : PodManager) (s : PodState) (o : ListOutcome)
    (job task : String) (mf : Manifest) (s' : PodState) (mf' : Manifest)
    (r : Except PyError Bool) (hk : mf.kind = "Pod")
    (h : launch m s o job task mf = (s', mf', r)) :
    ((∃ e, r = .error e) ∧ mf' = { mf with restartPolicy := some "Never" } ∧
       s'.pods = s.pods ∧ s'.warned = s.warned ∧ s'.log = s.log) ∨
    (r = .ok false ∧ mf' = { mf with restartPolicy := some "Never" } ∧
       s'.pods = s.pods ∧
       ((task ∈ s.warned ∧ s'.warned = s.warned ∧ s'.log = s.log) ∨
        (task ∉ s.warned ∧ s'.warned = task :: s.warned ∧
          (s'.log = s.log ++ [.cpuLimit task] ∨ s'.log = s.log ++ [.memLimit task])))) ∨
    ((r = .ok true ∨ r = .error .typeError) ∧
       mf' = { mf with
                restartPolicy := some "Never"
                metadata := some (updatedMetadata m job task mf.metadata) } ∧
       s'.pods = s.pods ++ [mkPod m job task mf.containers] ∧
       s'.warned = s.warned ∧ s'.log = s.log ++ [.creating task job]) := by
  unfold launch at h
  rw [if_neg (by simp [hk])] at h
  simp only [] at h
  split at h
  · -- cpu_usage raised
    rename_i s₁ e heq
    obtain ⟨hs, hmf, hr⟩ := triple_eq h
    obtain ⟨hp, hw, hl⟩ := cpu_usage_frame m s o s₁ (.error e) heq
    exact Or.inl ⟨⟨e, hr.symm⟩, hmf.symm, hs ▸ hp, hs ▸ hw, hs ▸ hl⟩
  · rename_i s₁ cpuU heq
    obtain ⟨hp₁, hw₁, hl₁⟩ := cpu_usage_frame m s o s₁ (.ok cpuU) heq
    split at h
    · -- cpu rejection
      split at h
      · rename_i hwin
        obtain ⟨hs, hmf, hr⟩ := triple_eq h
        exact Or.inr (Or.inl ⟨hr.symm, hmf.symm, hs ▸ hp₁,
          Or.inl ⟨hw₁ ▸ hwin, hs ▸ hw₁, hs ▸ hl₁⟩⟩)
      · rename_i hwout
        obtain ⟨hs, hmf, hr⟩ := triple_eq h
        refine Or.inr (Or.inl ⟨hr.symm, hmf.symm, by rw [← hs]; exact hp₁,
          Or.inr ⟨hw₁ ▸ hwout, by rw [← hs, hw₁], Or.inl (by rw [← hs, hl₁])⟩⟩)
    · split at h
      · -- mem_usage raised
        rename_i s₂ e heq₂
        obtain ⟨hs, hmf, hr⟩ := triple_eq h
        obtain ⟨hp₂, hw₂, hl₂⟩ := mem_usage_frame m s₁ o s₂ (.error e) heq₂
        exact Or.inl ⟨⟨e, hr.symm⟩, hmf.symm, hs ▸ (hp₂.trans hp₁),
          hs ▸ (hw₂.trans hw₁), hs ▸ (hl₂.trans hl₁)⟩
      · rename_i s₂ memU heq₂
        obtain ⟨hp₂, hw₂, hl₂⟩ := mem_usage_frame m s₁ o s₂ (.ok memU) heq₂
        split at h
        · -- mem rejection
          split at h
          · rename_i hwin
            obtain ⟨hs, hmf, hr⟩ := triple_eq h
            exact Or.inr (Or.inl ⟨hr.symm, hmf.symm, hs ▸ (hp₂.trans hp₁),
              Or.inl ⟨(hw₂.trans hw₁) ▸ hwin, hs ▸ (hw₂.trans hw₁),
                hs ▸ (hl₂.trans hl₁)⟩⟩)
          · rename_i hwout
            obtain ⟨hs, hmf, hr⟩ := triple_eq h
            refine Or.inr (Or.inl ⟨hr.symm, hmf.symm, by rw [← hs]; exact hp₂.trans hp₁,
              Or.inr ⟨(hw₂.trans hw₁) ▸ hwout, by rw [← hs, hw₂, hw₁],
                Or.inr (by rw [← hs, hl₂, hl₁])⟩⟩)
        · -- create path
          split at h
          · -- cpu charge TypeError
            rename_i e heq₃
            obtain ⟨hs, hmf, hr⟩ := triple_eq h
            refine Or.inr (Or.inr ⟨Or.inr (by rw [← hr, optAdd_error heq₃]),
              hmf.symm, ?_, ?_, ?_⟩) <;>
              simp [← hs, hp₂, hp₁, hw₂, hw₁, hl₂, hl₁]
          · split at h
            · -- mem charge TypeError
              rename_i e heq₃
              obtain ⟨hs, hmf, hr⟩ := triple_eq h
              refine Or.inr (Or.inr ⟨Or.inr (by rw [← hr, optAdd_error heq₃]),
                hmf.symm, ?_, ?_, ?_⟩) <;>
                simp [← hs, hp₂, hp₁, hw₂, hw₁, hl₂, hl₁]
            · -- admitted
              obtain ⟨hs, hmf, hr⟩ := triple_eq h
              refine Or.inr (Or.inr ⟨Or.inl hr.symm, hmf.symm, ?_, ?_, ?_⟩) <;>
                simp [← hs, hp₂, hp₁, hw₂, hw₁, hl₂, hl₁]

/-- C1: with the usage cache populated, `launch` admits the job iff
the manifest's summed cpu requests plus the cached cpu usage stay
within `cpu_quota` and likewise for memory; on admission it creates the
pod in the backend, charges exactly the requested amounts to the cached
usage, and returns `true`. -/
theorem C1_launch_admission (m : PodManager) (s : PodState) (o : ListOutcome)
    (job task : String) (mf : Manifest) (cv mv : ℚ)
    (hk : mf.kind = "Pod") (hc : s.cpuUsage = some cv) (hm : s.memUsage = some mv) :
    ((launch m s o job task mf).2.2 = .ok true ↔
      sumCpu mf.containers + cv ≤ m.cpuQuota ∧
      sumMem mf.containers + mv ≤ m.memQuota) ∧
    ((launch m s o job task mf).2.2 = .ok true →
      (launch m s o job task mf).1.pods = s.pods ++ [mkPod m job task mf.containers] ∧
      (launch m s o job task mf).1.cpuUsage = some (cv + sumCpu mf.containers) ∧
      (launch m s o job task mf).1.memUsage = some (mv + sumMem mf.containers)) := by
  rw [launch_cacheHit m s o job task mf cv mv hk hc hm]
  split_ifs with h1 hw1 h2 hw2 <;>
    first
      | simp [not_le.mpr h1]
      | simp [not_le.mpr h2]
      | simp [not_lt.mp h1, not_lt.mp h2]

/-- C1 witness: a one-cpu/one-memory manifest against an empty cluster
with unit quotas is admitted, the pod is created, and the cache is
charged. -/
theorem C1_launch_admission_witness :
    ((launch exManager exLoaded .items "j" "t" exManifest11).2.2 = .ok true ↔
      sumCpu exManifest11.containers + 0 ≤ exManager.cpuQuota ∧
      sumMem exManifest11.containers + 0 ≤ exManager.memQuota) ∧
    ((launch exManager exLoaded .items "j" "t" exManifest11).2.2 = .ok true →
      (launch exManager exLoaded .items "j" "t" exManifest11).1.pods =
        exLoaded.pods ++ [mkPod exManager "j" "t" exManifest11.containers] ∧
      (launch exManager exLoaded .items "j" "t" exManifest11).1.cpuUsage =
        some (0 + sumCpu exManifest11.containers) ∧
      (launch exManager exLoaded .items "j" "t" exManifest11).1.memUsage =
        some (0 + sumMem exManifest11.containers)) :=
  C1_launch_admission exManager exLoaded .items "j" "t" exManifest11 0 0 rfl rfl rfl

/-- Fields of the metadata dict `launch` writes on admission. -/
theorem updatedMetadata_fields (m : PodManager) (job task : String)
    (omd : Option MetaData) :
    (updatedMetadata m job task omd).name = some (mkPodName m job task) ∧
    (updatedMetadata m job task omd).labels = some ⟨m.app, task, job⟩ := by
  cases omd <;> simp [updatedMetadata]

/-- C10: `launch` mutates the caller's manifest in place: it forces
`spec['restartPolicy']` to `'Never'` before the admission check — even
a rejected or error-raising launch returns the manifest so modified —
and on admission it overwrites the metadata `name` with
`'<app>-<job>-<task>'` and the metadata `labels` with the
app/task/job triple. -/
theorem C10_launch_mutates_manifest (m : PodManager) (s : PodState)
    (o : ListOutcome) (job task : String) (mf : Manifest)
    (hk : mf.kind = "Pod") :
    (launch m s o job task mf).2.1.restartPolicy = some "Never" ∧
    ((launch m s o job task mf).2.2 = .ok true →
      ∃ md, (launch m s o job task mf).2.1.metadata = some md ∧
        md.name = some (mkPodName m job task) ∧
        md.labels = some ⟨m.app, task, job⟩) := by
  rcases hL : launch m s o job task mf with ⟨s', mf', r⟩
  rcases launch_outcomes m s o job task mf s' mf' r hk hL with
    ⟨⟨e, he⟩, hmf, -⟩ | ⟨hr, hmf, -⟩ | ⟨hr, hmf, -⟩
  · subst hmf
    exact ⟨rfl, fun hok => absurd (he ▸ hok) (by simp)⟩
  · subst hmf
    exact ⟨rfl, fun hok => by simp [hr] at hok⟩
  · subst hmf
    refine ⟨rfl, fun _ => ⟨updatedMetadata m job task mf.metadata, rfl,
      updatedMetadata_fields m job task mf.metadata⟩⟩

/-- C10 witness: concrete admitted launch showing the manifest
rewrites. -/
theorem C10_launch_mutates_manifest_witness :
    (launch exManager exLoaded .items "j" "t" exManifest11).2.1.restartPolicy =
      some "Never" ∧
    ((launch exManager exLoaded .items "j" "t" exManifest11).2.2 = .ok true →
      ∃ md, (launch exManager exLoaded .items "j" "t" exManifest11).2.1.metadata =
          some md ∧
        md.name = some (mkPodName exManager "j" "t") ∧
        md.labels = some ⟨exManager.app, "t", "j"⟩) :=
  C10_launch_mutates_manifest exManager exLoaded .items "j" "t" exManifest11 rfl

/-- C3 (amended): a rejected `launch` creates no pod in the backend,
and — when the usage cache was already populated before the call —
leaves the cached cpu and memory usage exactly as they were.  (On a
cache miss, a rejected call populates the cache as a side effect; see
the counterexample.) -/
theorem C3_reject_frame (m : PodManager) (s : PodState) (o : ListOutcome)
    (job task : String) (mf : Manifest) (s' : PodState) (mf' : Manifest)
    (h : launch m s o job task mf = (s', mf', .ok false)) :
    s'.pods = s.pods ∧
    (∀ cv mv, s.cpuUsage = some cv → s.memUsage = some mv →
      s'.cpuUsage = some cv ∧ s'.memUsage = some mv) := by
  have hk : mf.kind = "Pod" := by
    by_contra hk
    unfold launch at h
    rw [if_pos hk] at h
    exact absurd (triple_eq h).2.2 (by simp)
  rcases launch_outcomes m s o job task mf s' mf' (.ok false) hk h with
    ⟨⟨e, he⟩, -⟩ | ⟨-, -, hp, -⟩ | ⟨hr, -⟩
  · exact absurd he (by simp)
  · refine ⟨hp, fun cv mv hc hm => ?_⟩
    rw [launch_cacheHit m s o job task mf cv mv hk hc hm] at h
    split_ifs at h with h1 h3 h2 h4
    · obtain ⟨hs, -, -⟩ := triple_eq h
      exact ⟨by rw [← hs]; simp [hc], by rw [← hs]; simp [hm]⟩
    · obtain ⟨hs, -, -⟩ := triple_eq h
      exact ⟨by rw [← hs]; simp [hc], by rw [← hs]; simp [hm]⟩
    · obtain ⟨hs, -, -⟩ := triple_eq h
      exact ⟨by rw [← hs]; simp [hc], by rw [← hs]; simp [hm]⟩
    · obtain ⟨hs, -, -⟩ := triple_eq h
      exact ⟨by rw [← hs]; simp [hc], by rw [← hs]; simp [hm]⟩
    · exact absurd (triple_eq h).2.2 (by simp)
  · rcases hr with hr | hr <;> exact absurd hr (by simp)

/-- C3 witness: with the cache loaded at zero, an over-quota launch is
rejected, creates no pod, and leaves the cache at zero. -/
theorem C3_reject_frame_witness :
    (launch exManager exLoaded .items "j" "t" exManifestCpu2).1.pods =
      exLoaded.pods ∧
    (launch exManager exLoaded .items "j" "t" exManifestCpu2).1.cpuUsage =
      some 0 ∧
    (launch exManager exLoaded .items "j" "t" exManifestCpu2).1.memUsage =
      some 0 := by
  have h : launch exManager exLoaded .items "j" "t" exManifestCpu2 =
      (⟨some 0, some 0, ["t"], [], [.cpuLimit "t"]⟩,
       ⟨"Pod", [⟨2, 0⟩], some "Never", none⟩, .ok false) := by
    norm_num [launch, cpu_usage, mem_usage, exLoaded, exManager, exManifestCpu2,
      optAdd, sumCpu, sumMem]
  have hall := C3_reject_frame exManager exLoaded .items "j" "t" exManifestCpu2
    _ _ h
  rw [h]
  exact ⟨hall.1, (hall.2 0 0 rfl rfl).1, (hall.2 0 0 rfl rfl).2⟩

/-- C2: on a cache miss with one running matching pod (requesting one
cpu and one memory unit), `_load_usage` raises `TypeError` — the loop
increments the `None`-valued fields `self._cpu_usage` /
`self._mem_usage` instead of the local accumulators — and the `finally`
clause leaves the cached usage at `(0, 0)` instead of the claimed sums
`(1, 1)` of the running pod's requests. -/
theorem C2_loadUsage_code_bug :
    (loadUsage exManager exFreshPods .items).2 = some PyError.typeError ∧
    (loadUsage exManager exFreshPods .items).1.cpuUsage = some 0 ∧
    (loadUsage exManager exFreshPods .items).1.memUsage = some 0 ∧
    sumCpu (matchingContainers exManager exFreshPods.pods) = 1 ∧
    sumMem (matchingContainers exManager exFreshPods.pods) = 1 := by
  norm_num [loadUsage, loadLoop, matchingContainers, podsMatching, exManager,
    exFreshPods, exPod, optAdd, sumCpu, sumMem]

/-- C3 counterexample: a rejected `launch` on a cache miss does *not*
leave the cached usage as it was — it populates the cache (from `None`
to `0`) as a side effect of the admission check's usage load. -/
theorem C3_counterexample :
    (launch exManager exFresh .items "j" "t" exManifestCpu2).2.2 = .ok false ∧
    exFresh.cpuUsage = none ∧ exFresh.memUsage = none ∧
    (launch exManager exFresh .items "j" "t" exManifestCpu2).1.cpuUsage = some 0 ∧
    (launch exManager exFresh .items "j" "t" exManifestCpu2).1.memUsage = some 0 := by
  norm_num [launch, cpu_usage, mem_usage, loadUsage, loadLoop, matchingContainers,
    podsMatching, exManager, exFresh, exManifestCpu2, optAdd, sumCpu, sumMem]

/-- A pod list containing the name always deletes successfully. -/
theorem removePodNamed_mem (nm : String) (ps : List Pod)
    (hp : ∃ p ∈ ps, p.name = nm) :
    ∃ ps', removePodNamed nm ps = some ps' := by
  induction ps with
  | nil => simp at hp
  | cons p rest ih =>
    by_cases hname : p.name = nm
    · exact ⟨rest, by simp [removePodNamed, hname]⟩
    · obtain ⟨q, hq, hqn⟩ := hp
      rcases List.mem_cons.mp hq with rfl | hq'
      · exact absurd hqn hname
      · obtain ⟨ps', hps⟩ := ih ⟨q, hq', hqn⟩
        exact ⟨p :: ps', by simp [removePodNamed, hname, hps]⟩

/-- A pod list without the name makes the backend delete raise. -/
theorem removePodNamed_absent (nm : String) (ps : List Pod)
    (h : ∀ p ∈ ps, p.name ≠ nm) : removePodNamed nm ps = none := by
  induction ps with
  | nil => rfl
  | cons p rest ih =>
    simp [removePodNamed, h p (List.mem_cons_self p rest),
      ih (fun q hq => h q (List.mem_cons_of_mem p hq))]

/-- With the cache loaded, `delete`'s decrement loop subtracts exactly
the containers' summed requests. -/
theorem deleteLoop_loaded (cs : List Container) (s : PodState) (a b : ℚ)
    (hc : s.cpuUsage = some a) (hm : s.memUsage = some b) :
    deleteLoop s cs =
      ({ s with cpuUsage := some (a - sumCpu cs)
                memUsage := some (b - sumMem cs) }, .ok ()) := by
  induction cs generalizing s a b with
  | nil =>
    simp only [deleteLoop, sumCpu, sumMem, List.map_nil, List.sum_nil, sub_zero,
      ← hc, ← hm]
  | cons c rest ih =>
    simp only [deleteLoop, hc, hm, optSub]
    rw [ih _ (a - c.cpuReq) (b - c.memReq) rfl rfl]
    simp [sumCpu, sumMem, sub_sub]

/-- C4 (amended): when the usage cache was populated before the call,
a successful `launch` followed by a `delete` of the created pod returns
the cached cpu and memory usage exactly to their pre-launch values, and
raises nothing.  (From a cache-miss state the round trip instead lands
on the loaded values, not on the unset pre-launch cache; see the
counterexample.) -/
theorem C4_launch_delete_roundtrip (m : PodManager) (s : PodState)
    (o o' : ListOutcome) (job task : String) (mf : Manifest) (cv mv : ℚ)
    (hk : mf.kind = "Pod") (hc : s.cpuUsage = some cv) (hm : s.memUsage = some mv)
    (hAdm : (launch m s o job task mf).2.2 = .ok true) :
    (delete m (launch m s o job task mf).1 o'
        (mkPod m job task mf.containers)).1.cpuUsage = some cv ∧
    (delete m (launch m s o job task mf).1 o'
        (mkPod m job task mf.containers)).1.memUsage = some mv ∧
    (delete m (launch m s o job task mf).1 o'
        (mkPod m job task mf.containers)).2 = .ok () := by
  rw [launch_cacheHit m s o job task mf cv mv hk hc hm] at hAdm ⊢
  split_ifs at hAdm ⊢ with h1 hw1 h2 hw2
  · simp at hAdm
  · simp at hAdm
  · simp at hAdm
  · simp at hAdm
  · obtain ⟨ps', hps⟩ := removePodNamed_mem (mkPod m job task mf.containers).name
      (s.pods ++ [mkPod m job task mf.containers])
      ⟨mkPod m job task mf.containers, by simp, rfl⟩
    unfold delete
    rw [cpu_usage_cacheHit _ _ _ (cv + sumCpu mf.containers) rfl]
    simp only []
    rw [hps]
    simp only []
    rw [deleteLoop_loaded (mkPod m job task mf.containers).containers _
      (cv + sumCpu mf.containers) (mv + sumMem mf.containers) rfl rfl]
    simp [mkPod]

/-- C4 witness: concrete round trip at cached usage zero. -/
theorem C4_launch_delete_roundtrip_witness :
    (delete exManager (launch exManager exLoaded .items "j" "t" exManifest11).1
        .items (mkPod exManager "j" "t" exManifest11.containers)).1.cpuUsage =
      some 0 ∧
    (delete exManager (launch exManager exLoaded .items "j" "t" exManifest11).1
        .items (mkPod exManager "j" "t" exManifest11.containers)).1.memUsage =
      some 0 ∧
    (delete exManager (launch exManager exLoaded .items "j" "t" exManifest11).1
        .items (mkPod exManager "j" "t" exManifest11.containers)).2 = .ok () :=
  C4_launch_delete_roundtrip exManager exLoaded .items .items "j" "t"
    exManifest11 0 0 rfl rfl rfl
    (by norm_num [launch, cpu_usage, mem_usage, exLoaded, exManager,
      exManifest11, optAdd, sumCpu, sumMem])

/-- C4 counterexample: from a cache-miss state (`exFresh`, cached usage
unset, empty backend) a fitting launch succeeds — the admission check's
usage load populates the cache at `0` — and the subsequent `delete` of
the created pod leaves the cached usage at `some 0`, not at its
pre-launch value `none`: the round trip is not exact for every
`PodManager` state. -/
theorem C4_counterexample :
    exFresh.cpuUsage = none ∧ exFresh.memUsage = none ∧
    (launch exManager exFresh .items "j" "t" exManifest11).2.2 = .ok true ∧
    (delete exManager (launch exManager exFresh .items "j" "t" exManifest11).1
        .items (mkPod exManager "j" "t" exManifest11.containers)).2 = .ok () ∧
    (delete exManager (launch exManager exFresh .items "j" "t" exManifest11).1
        .items (mkPod exManager "j" "t" exManifest11.containers)).1.cpuUsage =
      some 0 ∧
    (delete exManager (launch exManager exFresh .items "j" "t" exManifest11).1
        .items (mkPod exManager "j" "t" exManifest11.containers)).1.memUsage =
      some 0 := by
  norm_num [launch, cpu_usage, mem_usage, loadUsage, loadLoop,
    matchingContainers, podsMatching, delete, deleteLoop, removePodNamed,
    exFresh, exManager, exManifest11, optAdd, optSub, sumCpu, sumMem, mkPod,
    mkPodName]

/-- C7 (amended): `delete` of a pod whose name is absent from the
backend is not a silent no-op: after the usage-cache load it raises the
backend's not-found `ApiException` and performs no usage decrement. -/
theorem C7_delete_missing_raises (m : PodManager) (s : PodState)
    (o : ListOutcome) (pod : Pod) (cv mv : ℚ)
    (hc : s.cpuUsage = some cv) (hm : s.memUsage = some mv)
    (habsent : ∀ p ∈ s.pods, p.name ≠ pod.name) :
    delete m s o pod = (s, .error (.apiException "Not Found")) := by
  unfold delete
  rw [cpu_usage_cacheHit m s o cv hc]
  simp only []
  rw [removePodNamed_absent pod.name s.pods habsent]

/-- C7 witness: deleting `exPod` from an empty backend raises. -/
theorem C7_delete_missing_raises_witness :
    delete exManager exLoaded .items exPod =
      (exLoaded, .error (.apiException "Not Found")) :=
  C7_delete_missing_raises exManager exLoaded .items exPod 0 0 rfl rfl
    (by simp [exLoaded])

/-- Warning counts add over log concatenation. -/
theorem warnCount_append (t : String) (l1 l2 : List LogMsg) :
    warnCount t (l1 ++ l2) = warnCount t l1 + warnCount t l2 := by
  simp [warnCount, List.filter_append]

/-- One `launch` call preserves the warning invariant for any task
name: an unwarned task has no warnings in the log, and no task ever
accumulates more than one. -/
theorem launch_warn_step (m : PodManager) (s : PodState) (o : ListOutcome)
    (job task : String) (mf : Manifest) (t : String)
    (ha : t ∉ s.warned → warnCount t s.log = 0)
    (hb : warnCount t s.log ≤ 1) :
    (t ∉ (launch m s o job task mf).1.warned →
      warnCount t (launch m s o job task mf).1.log = 0) ∧
    warnCount t (launch m s o job task mf).1.log ≤ 1 := by
  by_cases hk : mf.kind = "Pod"
  · rcases hL : launch m s o job task mf with ⟨s', mf', r⟩
    simp only [hL]
    rcases launch_outcomes m s o job task mf s' mf' r hk hL with
      ⟨-, -, -, hw, hl⟩ | ⟨-, -, -, hcases⟩ | ⟨-, -, -, hw, hl⟩
    · rw [hw, hl]
      exact ⟨ha, hb⟩
    · rcases hcases with ⟨-, hw, hl⟩ | ⟨hout, hw, hl⟩
      · rw [hw, hl]
        exact ⟨ha, hb⟩
      · by_cases ht : t = task
        · subst ht
          have hcnt : warnCount t s.log = 0 := ha hout
          constructor
          · intro habs
            rw [hw] at habs
            exact absurd (List.mem_cons_self t s.warned) habs
          · have h1 : warnCount t [LogMsg.cpuLimit t] = 1 := by
              simp [warnCount, isWarnFor]
            have h2 : warnCount t [LogMsg.memLimit t] = 1 := by
              simp [warnCount, isWarnFor]
            rcases hl with hl | hl <;> rw [hl, warnCount_append, hcnt] <;>
              simp [h1, h2]
        · have hts : task ≠ t := fun h => ht h.symm
          have hcnt : warnCount t [LogMsg.cpuLimit task] = 0 ∧
              warnCount t [LogMsg.memLimit task] = 0 := by
            constructor <;> simp [warnCount, isWarnFor, hts]
          have hlog : warnCount t s'.log = warnCount t s.log := by
            rcases hl with hl | hl <;>
              simp [hl, warnCount_append, hcnt.1, hcnt.2]
          rw [hlog]
          refine ⟨fun habs => ha fun hin => habs ?_, hb⟩
          rw [hw]
          exact List.mem_cons_of_mem task hin
    · have : warnCount t [LogMsg.creating task job] = 0 := by
        simp [warnCount, isWarnFor]
      rw [hw, hl, warnCount_append, this]
      exact ⟨ha, hb⟩
  · unfold launch
    rw [if_pos hk]
    exact ⟨ha, hb⟩

/-- C8 (amended): warning deduplication is keyed by task name alone,
not by (task, condition): across any sequence of `launch` calls, a
task that starts unwarned and without warnings in the log accumulates
at most one quota warning in total — the first rejection logs its
condition's warning, every later rejection of that task (for either
condition) logs nothing. -/
theorem C8_warn_once_per_task (m : PodManager) (t : String) (s : PodState)
    (calls : List LaunchCall)
    (hw : t ∉ s.warned) (hl : warnCount t s.log = 0) :
    warnCount t (runLaunches m s calls).log ≤ 1 := by
  have main : ∀ (cs : List LaunchCall) (st : PodState),
      (t ∉ st.warned → warnCount t st.log = 0) → warnCount t st.log ≤ 1 →
      warnCount t (runLaunches m st cs).log ≤ 1 := by
    intro cs
    induction cs with
    | nil => intro st ha hb; exact hb
    | cons c rest ih =>
      intro st ha hb
      have step := launch_warn_step m st c.o c.job c.task c.manifest t ha hb
      exact ih _ step.1 step.2
  exact main calls s (fun _ => hl) (by simp [hl])

/-- C8 witness: the concrete cpu-then-memory rejection sequence for one
task stays within one logged warning. -/
theorem C8_warn_once_per_task_witness :
    warnCount "t" (runLaunches exManager exLoaded
      [⟨.items, "j1", "t", exManifestCpu2⟩,
       ⟨.items, "j2", "t", exManifestMem2⟩]).log ≤ 1 :=
  C8_warn_once_per_task exManager "t" exLoaded
    [⟨.items, "j1", "t", exManifestCpu2⟩, ⟨.items, "j2", "t", exManifestMem2⟩]
    (by simp [exLoaded]) (by simp [exLoaded, warnCount])

/-- C5 counterexample: a `Session` with no registered ephemerals can be
opened twice; the second `open()` raises nothing at all — in particular
no `SessionAlreadyOpen` (no such check exists in the code). -/
theorem C5_counterexample :
    (openSession (emptySession Nat)).2 = none ∧
    (openSession (openSession (emptySession Nat)).1).2 = none := by
  decide

/-- Looking up the key just set returns the new value. -/
theorem dictGet_dictSet_self {β : Type} (l : List (String × β)) (k : String)
    (v : β) : dictGet (dictSet l k v) k = some v := by
  induction l with
  | nil => simp [dictGet, dictSet]
  | cons p rest ih =>
    by_cases h : p.1 = k
    · simp [dictGet, dictSet, h]
    · simp only [dictSet]
      rw [if_neg (by simp [h])]
      simpa [dictGet, h] using ih

/-- Setting one key does not disturb lookups of another. -/
theorem dictGet_dictSet_ne {β : Type} (l : List (String × β)) (k k' : String)
    (v : β) (h : k' ≠ k) : dictGet (dictSet l k' v) k = dictGet l k := by
  induction l with
  | nil => simp [dictGet, dictSet, h]
  | cons p rest ih =>
    by_cases hp : p.1 = k'
    · simp only [dictSet]
      rw [if_pos (by simp [hp])]
      simp [dictGet, h, hp]
    · simp only [dictSet]
      rw [if_neg (by simp [hp])]
      by_cases hpk : p.1 = k
      · simp [dictGet, hpk]
      · simpa [dictGet, hpk] using ih

/-- When every registered generator still has a value to yield,
`Session.open`'s loop completes without error and advances each
generator past its first yield. -/
theorem openGo_success {α : Type} (defs done : List (String × List α))
    (eph : List (String × α)) (hne : ∀ p ∈ defs, p.2 ≠ []) :
    (openGo done defs eph).1.ephemeralDefs =
      done ++ defs.map (fun p => (p.1, p.2.tail)) ∧
    (openGo done defs eph).2 = none := by
  induction defs generalizing done eph with
  | nil => simp [openGo]
  | cons p rest ih =>
    obtain ⟨nm, vs⟩ := p
    cases vs with
    | nil => exact absurd rfl (hne (nm, []) (List.mem_cons_self _ _))
    | cons v vs' =>
      simp only [openGo]
      have h := ih (done ++ [(nm, vs')]) (dictSet eph nm v)
        (fun q hq => hne q (List.mem_cons_of_mem _ hq))
      exact ⟨by rw [h.1]; simp, h.2⟩

/-- The open loop touches only the names it processes. -/
theorem openGo_lookup_preserved {α : Type} (defs : List (String × List α))
    (done : List (String × List α)) (eph : List (String × α)) (nm : String)
    (hnm : ∀ p ∈ defs, p.1 ≠ nm) :
    dictGet (openGo done defs eph).1.ephemerals nm = dictGet eph nm := by
  induction defs generalizing done eph with
  | nil => simp [openGo]
  | cons p rest ih =>
    obtain ⟨nm', vs⟩ := p
    cases vs with
    | nil => simp [openGo]
    | cons v vs' =>
      simp only [openGo]
      rw [ih (done ++ [(nm', vs')]) (dictSet eph nm' v)
        (fun q hq => hnm q (List.mem_cons_of_mem _ hq))]
      exact dictGet_dictSet_ne eph nm nm' v
        (hnm (nm', v :: vs') (List.mem_cons_self _ _))

/-- After a completed open loop over distinctly-named, nonempty
generators, the live table holds each manager's first yield. -/
theorem openGo_lookup {α : Type} (defs done : List (String × List α))
    (eph : List (String × α)) (nm : String) (v : α) (vs : List α)
    (hmem : (nm, v :: vs) ∈ defs)
    (hnodup : (defs.map Prod.fst).Nodup)
    (hne : ∀ p ∈ defs, p.2 ≠ []) :
    dictGet (openGo done defs eph).1.ephemerals nm = some v := by
  induction defs generalizing done eph with
  | nil => simp at hmem
  | cons p rest ih =>
    obtain ⟨nm', vs'⟩ := p
    have hnodup' : (nm' :: rest.map Prod.fst).Nodup := by simpa using hnodup
    obtain ⟨hhead, htail⟩ := List.nodup_cons.mp hnodup'
    rcases List.mem_cons.mp hmem with heq | hmem'
    · injection heq with h1 h2
      subst h1
      subst h2
      simp only [openGo]
      rw [openGo_lookup_preserved rest (done ++ [(nm, vs)]) (dictSet eph nm v) nm
        (fun q hq hqn => hhead (hqn ▸ List.mem_map_of_mem Prod.fst hq))]
      exact dictGet_dictSet_self eph nm v
    · cases vs' with
      | nil => exact absurd rfl (hne (nm', []) (List.mem_cons_self _ _))
      | cons w ws =>
        simp only [openGo]
        exact ih (done ++ [(nm', ws)]) (dictSet eph nm' w) hmem' htail
          (fun q hq => hne q (List.mem_cons_of_mem _ hq))

/-- C5 (amended): the code has no `SessionAlreadyOpen` check.  On a
session with at least one registered (single-yield) ephemeral the first
`open()` completes, and a second `open()` fails with
`StopAsyncIteration` raised by the first, now exhausted, manager
generator; with no registered ephemerals a second `open()` completes
without error (see the counterexample). -/
theorem C5_second_open (α : Type) (nm : String) (v : α)
    (rest : List (String × List α)) (eph : List (String × α))
    (hne : ∀ p ∈ rest, p.2 ≠ []) :
    (openSession (⟨(nm, [v]) :: rest, eph⟩ : Session α)).2 = none ∧
    (openSession (openSession (⟨(nm, [v]) :: rest, eph⟩ : Session α)).1).2 =
      some .stopAsyncIteration := by
  have hne' : ∀ p ∈ (nm, [v]) :: rest, p.2 ≠ [] := by
    intro p hp
    rcases List.mem_cons.mp hp with rfl | hp'
    · simp
    · exact hne p hp'
  obtain ⟨hdefs, herr⟩ := openGo_success ((nm, [v]) :: rest) [] eph hne'
  refine ⟨herr, ?_⟩
  unfold openSession
  simp only []
  rw [hdefs]
  simp [openGo]

/-- C5 amended witness: one registered single-yield ephemeral. -/
theorem C5_second_open_witness :
    (openSession (⟨[("r", [7])], []⟩ : Session Nat)).2 = none ∧
    (openSession (openSession (⟨[("r", [7])], []⟩ : Session Nat)).1).2 =
      some .stopAsyncIteration :=
  C5_second_open Nat "r" 7 [] [] (by simp)

/-- C6: invoking a registered resource's accessor before `open()` fails
with the session-not-open error, and invoking it after `open()` returns
the live resource produced by that manager's first yield. -/
theorem C6_accessor_lifecycle (α : Type) (s : Session α) (nm : String)
    (v : α) (vs : List α)
    (hfresh : s.ephemerals = [])
    (hmem : (nm, v :: vs) ∈ s.ephemeralDefs)
    (hnodup : (s.ephemeralDefs.map Prod.fst).Nodup)
    (hne : ∀ p ∈ s.ephemeralDefs, p.2 ≠ []) :
    accessor s nm = .error (.exception "Session is not open") ∧
    (openSession s).2 = none ∧
    accessor (openSession s).1 nm = .ok v := by
  refine ⟨by simp [accessor, dictGet, hfresh],
    (openGo_success s.ephemeralDefs [] s.ephemerals hne).2, ?_⟩
  unfold accessor
  rw [show openSession s = openGo [] s.ephemeralDefs s.ephemerals from rfl,
    openGo_lookup s.ephemeralDefs [] s.ephemerals nm v vs hmem hnodup hne]

/-- C6 witness: one registered manager yielding `7`. -/
theorem C6_accessor_lifecycle_witness :
    accessor (⟨[("r", [7])], []⟩ : Session Nat) "r" =
      .error (.exception "Session is not open") ∧
    (openSession (⟨[("r", [7])], []⟩ : Session Nat)).2 = none ∧
    accessor (openSession (⟨[("r", [7])], []⟩ : Session Nat)).1 "r" = .ok 7 :=
  C6_accessor_lifecycle Nat ⟨[("r", [7])], []⟩ "r" 7 []
    rfl (by simp) (by simp) (by simp)

/-- C7 counterexample: `delete` on a pod that no longer exists in the
backend does not complete without error — the backend's not-found
`ApiException` propagates uncaught. -/
theorem C7_counterexample :
    delete exManager exLoaded .items exPod =
      (exLoaded, .error (.apiException "Not Found")) := by
  norm_num [delete, cpu_usage, exLoaded, exManager, exPod, removePodNamed]

/-- C8 counterexample: task `"t"` is first rejected on the cpu
condition (warning logged, task added to `warned`), then rejected on
the *memory* condition; because `warned` is keyed by task name alone,
the memory-limit warning — a distinct failing condition — is never
logged, instead of exactly once as claimed. -/
theorem C8_counterexample :
    (launch exManager exLoaded .items "j1" "t" exManifestCpu2).2.2 = .ok false ∧
    (launch exManager exState8 .items "j2" "t" exManifestMem2).2.2 = .ok false ∧
    sumCpu exManifestMem2.containers + 0 ≤ exManager.cpuQuota ∧
    sumMem exManifestMem2.containers + 0 > exManager.memQuota ∧
    (launch exManager exState8 .items "j2" "t" exManifestMem2).1.log =
      [LogMsg.cpuLimit "t"] := by
  norm_num [launch, cpu_usage, mem_usage, exState8, exLoaded, exManager,
    exManifestCpu2, exManifestMem2, optAdd, sumCpu, sumMem]

/-- The typed-dict loop fails whenever some supplied key is outside
the schema (either at that key, or already at an earlier entry). -/
theorem tdLoop_missing_schema (name : String)
    (schema : List (String × (Value → Except PyError Value))) :
    ∀ (entries acc : List (String × Value)) (k : String) (vv : Value),
      (k, vv) ∈ entries → dictGet schema k = none →
      ∃ e, tdLoop name schema acc entries = .error e := by
  intro entries
  induction entries with
  | nil => intro acc k vv hmem; simp at hmem
  | cons p rest ih =>
    intro acc k vv hmem hk
    obtain ⟨k', v'⟩ := p
    rcases List.mem_cons.mp hmem with heq | hmem'
    · injection heq with h1 h2
      subst h1
      exact ⟨.valueError ("Invalid argument to " ++ name ++ ": " ++ k),
        by simp [tdLoop, hk]⟩
    · cases hd : dictGet schema k' with
      | none => exact ⟨.valueError ("Invalid argument to " ++ name ++ ": " ++ k'),
          by simp [tdLoop, hd]⟩
      | some transform =>
        cases htr : transform v' with
        | error e => exact ⟨e, by simp [tdLoop, hd, htr]⟩
        | ok v'' =>
          obtain ⟨e, he⟩ := ih (dictSet acc k' v'') k vv hmem' hk
          exact ⟨e, by simp [tdLoop, hd, htr, he]⟩

/-- C9 (amended): the pickers validate the *supplied* keys against the
enumerated key set: a non-mapping input, a missing `cls`, a `cls`
absent from the dispatch mapping, and a supplied argument key absent
from the schema each fail with a named `ValueError` before any
construction.  Keys the schema requires but the input omits are not
checked by this layer (see the counterexample): the partially-validated
dict flows on to the target constructor. -/
theorem C9_picker_validation (β : Type) (name : String)
    (mapping : List (String × (Value → Except PyError β)))
    (schema : List (String × (Value → Except PyError Value))) :
    (∀ thing : Value, (∀ entries, thing ≠ .vdict entries) →
      make_dispatcher name mapping thing =
        .error (.valueError (name ++ " must be a mapping"))) ∧
    (∀ entries, dictGet entries "cls" = none →
      make_dispatcher name mapping (.vdict entries) =
        .error (.valueError ("You must provide the cls name for " ++ name))) ∧
    (∀ entries ks, dictGet entries "cls" = some (.vstr ks) →
      dictGet mapping ks = none →
      make_dispatcher name mapping (.vdict entries) =
        .error (.valueError (ks ++ " is not a valid member of " ++ name))) ∧
    (∀ (entries : List (String × Value)) (k : String) (vv : Value),
      (k, vv) ∈ entries → dictGet schema k = none →
      ∃ e, make_typeddict_constructor name schema (.vdict entries) = .error e) := by
  refine ⟨?_, ?_, ?_, ?_⟩
  · intro thing hnd
    cases thing with
    | vdict entries => exact absurd rfl (hnd entries)
    | vstr a => rfl
    | vint a => rfl
    | vbool a => rfl
    | vlist a => rfl
    | vnone => rfl
  · intro entries hcls
    simp [make_dispatcher, hcls]
  · intro entries ks hcls hks
    simp [make_dispatcher, hcls, hks]
  · intro entries k vv hmem hk
    exact tdLoop_missing_schema name schema entries [] k vv hmem hk

/-- C9 witness: each validation failure at a concrete input. -/
theorem C9_picker_validation_witness :
    make_dispatcher "Repository" exRepoMapping (.vstr "File") =
      .error (.valueError ("Repository" ++ " must be a mapping")) ∧
    make_dispatcher "Repository" exRepoMapping (.vdict []) =
      .error (.valueError ("You must provide the cls name for " ++ "Repository")) ∧
    make_dispatcher "Repository" exRepoMapping
        (.vdict [("cls", .vstr "Bogus")]) =
      .error (.valueError ("Bogus" ++ " is not a valid member of " ++ "Repository")) ∧
    (∃ e, make_typeddict_constructor "FileRepository" [("basedir", idTransform)]
        (.vdict [("junk", .vnone)]) = .error e) := by
  have h := C9_picker_validation (List (String × Value)) "Repository"
    exRepoMapping [("basedir", idTransform)]
  have h2 := C9_picker_validation (List (String × Value)) "FileRepository"
    exRepoMapping [("basedir", idTransform)]
  exact ⟨h.1 (.vstr "File") (by intro entries h; exact Value.noConfusion h),
    h.2.1 [] rfl,
    h.2.2.1 [("cls", .vstr "Bogus")] "Bogus" rfl rfl,
    h2.2.2.2 [("junk", .vnone)] "junk" .vnone (List.mem_cons_self _ _) rfl⟩

/-- C9 counterexample: an input whose `args` omit the schema's (only,
required) key `basedir` yields no validation error — the dispatcher
invokes the target constructor with the empty keyword dict and an
object is constructed. -/
theorem C9_counterexample :
    make_dispatcher "Repository" exRepoMapping (.vdict [("cls", .vstr "File")]) =
      .ok [] := by
  rfl

end Pydatatask
